import Mathlib

/-!
Shallow embedding of the clewdr per-request orchestration core
(`src/lib/completion.rs` and `src/lib/messages.rs`), together with proofs
of the specification claims about it.

Conventions:
* Pure Rust code is translated into executable Lean definitions keeping the
  source names where possible.
* Network calls (`SUPER_CLIENT.post(...)`, `delete_chat`, `check_res_err`)
  are modelled by oracle parameters carrying the classified outcome
  (`Except ClewdrError Unit`), and every issued call is recorded in an
  explicit trace list, so ordering properties of calls are provable.
* Repository code that is outside the two shown source files
  (`types::message::Message`, `utils::TEST_MESSAGE`, `transform`,
  `handle_messages`, `delete_chat`, the `Reason` type of `config`) is
  modelled from the spec; each such definition says so in its doc comment.
-/

/-- Modelled from the spec: cookie-health signal returned to the pool
(`config::Reason`, not under `src/`); `Exhausted(retry_after_seconds)` plus
an invalid-cookie variant. -/
inductive Reason where
  | Exhausted (retryAfter : Int)
  | Invalid
deriving DecidableEq, Repr

/-- The closed error taxonomy `ClewdrError` (spec section 7); the variants
matched on by the shown source plus a catch-all for the generic
upstream/transport errors, which the shown code never inspects
individually. -/
inductive ClewdrError where
  | NoValidKey
  | WrongCompletionFormat
  | InvalidModel (name : String)
  | TooManyRequest (retryAfter : Int)
  | ExhaustedCookie (retryAfter : Int)
  | InvalidCookie (reason : Reason)
  | OtherError (detail : String)
deriving DecidableEq, Repr

/-- `completion.rs` `Message`: role and content strings plus the optional
boolean flags, with Rust `derive(PartialEq, Eq, PartialOrd, Ord)` order
modelled below by `msgKey`. -/
structure Message where
  role : String
  content : String
  customname : Option Bool := none
  name : Option String := none
  strip : Option Bool := none
  jailbreak : Option Bool := none
  main : Option Bool := none
  discard : Option Bool := none
  merged : Option Bool := none
  personality : Option Bool := none
  scenario : Option Bool := none
deriving DecidableEq, Repr

/-- `impl Default for Message`: user role, empty content, all flags `None`. -/
def Message.default : Message :=
  { role := "user", content := "" }

/-- `completion.rs` `PromptsGroup`. -/
structure PromptsGroup where
  first_user : Option Message
  first_system : Option Message
  first_assistant : Option Message
  last_user : Option Message
  last_system : Option Message
  last_assistant : Option Message
deriving DecidableEq, Repr

/-- `PromptsGroup::find`: first/last user, assistant, and system message,
the system ones excluding the sentinel content `"[Start a new chat]"`
(`iter().find` / `iter().rfind`). -/
def PromptsGroup.find (messages : List Message) : PromptsGroup :=
  { first_user := messages.find? (fun m => m.role == "user")
    first_system := messages.find?
      (fun m => m.role == "system" && m.content != "[Start a new chat]")
    first_assistant := messages.find? (fun m => m.role == "assistant")
    last_user := messages.reverse.find? (fun m => m.role == "user")
    last_system := messages.reverse.find?
      (fun m => m.role == "system" && m.content != "[Start a new chat]")
    last_assistant := messages.reverse.find? (fun m => m.role == "assistant") }

/-- `completion.rs` `RetryStrategy`. -/
inductive RetryStrategy where
  | Api
  | Renew
  | RetryRegen
  | CurrentRenew
  | CurrentContinue
deriving DecidableEq, Repr

/-- `RetryStrategy::is_current`. -/
def RetryStrategy.is_current : RetryStrategy → Bool
  | .CurrentRenew => true
  | .CurrentContinue => true
  | _ => false

/-- Identity embedding of `Option` into the order synonym `WithBot`,
which orders `none` below every `some` exactly as Rust derives
`Ord` for `Option<T>` (`None < Some(_)`). -/
def ow {α : Type} (x : Option α) : WithBot α := x

/-- Optional strings keyed as optional char lists, `none` first. -/
def owS (x : Option String) : WithBot (List Char) := x.map String.data

/-- The key realising Rust `derive(Ord)` on `Message`: lexicographic
comparison of the fields in declaration order, `Option` ordered with
`None` first, strings as their char sequences ordered lexicographically by
codepoint — which agrees with the byte-lexicographic order Rust uses on
UTF-8 strings. -/
def msgKey (m : Message) :
    (List Char) ×ₗ ((List Char) ×ₗ ((WithBot Bool) ×ₗ ((WithBot (List Char)) ×ₗ
      ((WithBot Bool) ×ₗ ((WithBot Bool) ×ₗ ((WithBot Bool) ×ₗ
      ((WithBot Bool) ×ₗ ((WithBot Bool) ×ₗ ((WithBot Bool) ×ₗ
      (WithBot Bool)))))))))) :=
  toLex (m.role.data, toLex (m.content.data, toLex (ow m.customname,
    toLex (owS m.name, toLex (ow m.strip, toLex (ow m.jailbreak,
    toLex (ow m.main, toLex (ow m.discard, toLex (ow m.merged,
    toLex (ow m.personality, ow m.scenario))))))))))

theorem strData_injective : Function.Injective String.data := by
  intro a b h
  cases a
  cases b
  exact congrArg String.mk h

theorem msgKey_injective : Function.Injective msgKey := by
  intro a b h
  cases a
  cases b
  simp only [msgKey, toLex_inj, Prod.mk.injEq, ow, owS] at h
  obtain ⟨h1, h2, h3, h4, h5, h6, h7, h8, h9, h10, h11⟩ := h
  exact Message.mk.injEq .. |>.mpr
    ⟨strData_injective h1, strData_injective h2, h3,
      Option.map_injective strData_injective h4, h5, h6, h7, h8, h9, h10, h11⟩

instance : LinearOrder Message := LinearOrder.lift' msgKey msgKey_injective

/-- `a.sort()` on the system-filtered message vectors: sorting under the
derived total order. Rust `sort` is a stable sort; under the total
antisymmetric derived order any sort returns the same unique sorted
permutation, modelled here by insertion sort (chosen because it is
structurally recursive, hence evaluable by the kernel). -/
def sortMessages (ms : List Message) : List Message :=
  List.insertionSort (· ≤ ·) ms

theorem sortMessages_perm (ms : List Message) : List.Perm (sortMessages ms) ms :=
  List.perm_insertionSort _ ms

theorem sortMessages_sorted (ms : List Message) :
    List.Sorted (· ≤ ·) (sortMessages ms) :=
  List.sorted_insertionSort _ ms

theorem sortMessages_eq_of_perm {l l' : List Message} (h : List.Perm l l') :
    sortMessages l = sortMessages l' :=
  List.eq_of_perm_of_sorted
    ((sortMessages_perm l).trans (h.trans (sortMessages_perm l').symm))
    (sortMessages_sorted l) (sortMessages_sorted l')

theorem sortMessages_eq_iff_perm {l l' : List Message} :
    sortMessages l = sortMessages l' ↔ List.Perm l l' := by
  constructor
  · intro h
    exact ((sortMessages_perm l).symm.trans (h ▸ List.Perm.rfl)).trans
      (sortMessages_perm l')
  · exact sortMessages_eq_of_perm

/-- The `filter(|m| m.role != "system")` step of the `same_prompts`
computation in `try_completion`. -/
def nonSystem (ms : List Message) : List Message :=
  ms.filter (fun m => m.role != "system")

/-- `try_completion` lines 246-257: filter out `system`-role messages from
both the current and the previous message list, sort both under the derived
total `Message` order, and compare for equality. -/
def same_prompts (cur prev : List Message) : Bool :=
  decide (sortMessages (nonSystem cur) = sortMessages (nonSystem prev))

/-- `try_completion` lines 258-262: not `same_prompts`, but the first
(sentinel-excluding) system content and the first user content both agree
with the previous request. -/
def same_char_diff_chat (cur prev : List Message) : Bool :=
  !same_prompts cur prev
    && decide ((PromptsGroup.find cur).first_system.map Message.content
        = (PromptsGroup.find prev).first_system.map Message.content)
    && decide ((PromptsGroup.find cur).first_user.map Message.content
        = (PromptsGroup.find prev).first_user.map Message.content)

/-- `try_completion` lines 263-267. -/
def should_renew (renew_always : Bool) (conv_uuid : Option String)
    (prev_impersonated : Bool) (cur prev : List Message) : Bool :=
  renew_always || conv_uuid.isNone || prev_impersonated
    || (!renew_always && same_prompts cur prev)
    || same_char_diff_chat cur prev

/-- `try_completion` lines 268-270. -/
def retry_regen (retry_regenerate : Bool) (conv_char : Option String)
    (cur prev : List Message) : Bool :=
  retry_regenerate && same_prompts cur prev && conv_char.isSome

/-- `u8::to_ascii_lowercase` on a char: ASCII upper-case letters map to
lower case, all else unchanged. -/
def asciiLower (c : Char) : Char :=
  if 'A' ≤ c && c ≤ 'Z' then Char.ofNat (c.toNat + 32) else c

/-- Rust `str::trim`: drop whitespace from both ends. Rust trims the full
Unicode `White_Space` set; all inputs arising here are ASCII, where that
set coincides with `Char.isWhitespace` (space, tab, CR, LF). Spelled as an
explicit char-list computation so that the kernel can evaluate it. -/
def rustTrim (s : String) : String :=
  String.mk
    (((s.data.dropWhile Char.isWhitespace).reverse.dropWhile
      Char.isWhitespace).reverse)

/-- Rust `str::eq_ignore_ascii_case`: equality after ASCII-lowercasing
both sides. -/
def eqIgnoreAsciiCase (a b : String) : Bool :=
  decide (a.data.map asciiLower = b.data.map asciiLower)

/-- `try_completion` lines 348-356: chain `stop_set`, the client `stop`
list, and the two defaults, keeping an entry unless its trimmed form is
empty or some `stop_revoke` entry equals it ignoring ASCII case. Kept
entries stay untrimmed. -/
def assembleStop (stop_set clientStop stop_revoke : List String) :
    List String :=
  (stop_set ++ clientStop ++ ["\n\nHuman:", "\n\nAssistant:"]).filter
    fun s =>
      let t := rustTrim s
      !t.isEmpty && !(stop_revoke.any fun r => eqIgnoreAsciiCase r t)

/-- The stop-list assembly as the spec words it: concatenate `stop_set`,
the client stop list and the defaults in order, drop entries whose trimmed
form is empty, drop entries whose trimmed form is case-insensitively equal
to a `stop_revoke` entry, no other deduplication. -/
def specStopList (stop_set clientStop stop_revoke : List String) :
    List String :=
  (stop_set ++ clientStop ++ ["\n\nHuman:", "\n\nAssistant:"]).filter
    fun entry =>
      decide (rustTrim entry ≠ "")
        && decide (∀ r ∈ stop_revoke,
            ¬(eqIgnoreAsciiCase r (rustTrim entry) = true))

/-- Match a literal char sequence at the head of the input, returning the
remainder. -/
def stripPrefixChars : List Char → List Char → Option (List Char)
  | [], cs => some cs
  | _ :: _, [] => none
  | p :: ps, c :: cs => if c = p then stripPrefixChars ps cs else none

/-- Try to match the closing `\] *\|>` of the marker regex at the head of
the input; on success return the run of spaces matched by ` *` and the
remainder after `|>`. Maximal munch on the spaces is faithful: a shorter
run would leave a space where `|` is required. -/
def closeAt (cs : List Char) : Option (List Char × List Char) :=
  match cs with
  | ']' :: rest =>
    let sp := rest.takeWhile (· = ' ')
    match rest.dropWhile (· = ' ') with
    | '|' :: '>' :: r3 => some (sp, r3)
    | _ => none
  | _ => none

/-- The lazy `.*?` of the marker regex: extend the interior one character
at a time (never across a newline, as `.` does not match `\n`), stopping at
the first position where the closing `\] *\|>` matches. Returns the
interior (without the closing bracket), the space run of the closer, and
the remainder of the input. -/
def lazyScan : List Char → Option (List Char × List Char × List Char)
  | [] => none
  | c :: rest =>
    match closeAt (c :: rest) with
    | some (sp, r) => some ([], sp, r)
    | none =>
      if c = '\n' then none
      else (lazyScan rest).map fun pr => (c :: pr.1, pr.2.1, pr.2.2)

/-- Match the regex `<\|TAG *(\[.*?\]) *\|>` at the head of the input.
On success returns `(full match, capture group 1, remainder)`. -/
def markerMatchAt (tag : List Char) (cs : List Char) :
    Option (List Char × List Char × List Char) :=
  match stripPrefixChars ('<' :: '|' :: tag) cs with
  | none => none
  | some cs1 =>
    let sp := cs1.takeWhile (· = ' ')
    match cs1.dropWhile (· = ' ') with
    | '[' :: cs3 =>
      match lazyScan cs3 with
      | some (interior, csp, rest) =>
        let group := '[' :: interior ++ [']']
        some ('<' :: '|' :: tag ++ sp ++ group ++ csp ++ ['|', '>'], group, rest)
      | none => none
    | _ => none

/-- `Regex::find_iter`: leftmost, non-overlapping matches, scanning left to
right. Fuel-driven recursion; every step consumes at least one character,
so fuel equal to the input length never runs out. -/
def findMarkersGo (tag : List Char) : Nat → List Char → List (List Char × List Char)
  | 0, _ => []
  | _, [] => []
  | Nat.succ fuel, c :: rest =>
    match markerMatchAt tag (c :: rest) with
    | some (full, group, r) => (full, group) :: findMarkersGo tag fuel r
    | none => findMarkersGo tag fuel rest

/-- All `(full match, capture group)` pairs of `<\|TAG *(\[.*?\]) *\|>`
in the prompt, leftmost first. -/
def findMarkers (tag : String) (prompt : String) : List (String × String) :=
  (findMarkersGo tag.data prompt.data.length prompt.data).map
    fun pr => (String.mk pr.1, String.mk pr.2)

/-- JSON string escapes as `serde_json` decodes them. `\uXXXX` escapes are
not modelled (none occur in the inputs considered here); on them the
parser fails where `serde_json` would decode. -/
def jsonEscChar (e : Char) : Option Char :=
  if e = 'n' then some '\n'
  else if e = 't' then some '\t'
  else if e = 'r' then some '\r'
  else if e = '"' then some e
  else if e = '\\' then some e
  else if e = '/' then some e
  else if e = 'b' then some (Char.ofNat 8)
  else if e = 'f' then some (Char.ofNat 12)
  else none

/-- Decode a JSON string body after its opening quote, returning the
decoded characters and the input remainder after the closing quote. -/
def parseStringBody : List Char → Option (List Char × List Char)
  | [] => none
  | '"' :: rest => some ([], rest)
  | '\\' :: rest =>
    match rest with
    | [] => none
    | e :: rest' =>
      match jsonEscChar e with
      | none => none
      | some c => (parseStringBody rest').map fun pr => (c :: pr.1, pr.2)
  | c :: rest => (parseStringBody rest).map fun pr => (c :: pr.1, pr.2)

/-- JSON whitespace as `serde_json` skips it. -/
def skipJsonWs (cs : List Char) : List Char :=
  cs.dropWhile (fun c => c = ' ' || c = '\t' || c = '\n' || c = '\r')

/-- Parse the comma-separated string elements of a JSON array, positioned
at the start of the first element; consumes through the closing `]`. -/
def parseElemsGo : Nat → List Char → Option (List String × List Char)
  | 0, _ => none
  | Nat.succ fuel, cs =>
    match cs with
    | '"' :: rest =>
      match parseStringBody rest with
      | none => none
      | some (str, rest1) =>
        match skipJsonWs rest1 with
        | ',' :: rest3 =>
          match parseElemsGo fuel (skipJsonWs rest3) with
          | none => none
          | some (strs, rest4) => some (String.mk str :: strs, rest4)
        | ']' :: rest3 => some ([String.mk str], rest3)
        | _ => none
    | _ => none

/-- `serde_json::from_str::<Vec<String>>`: a JSON array whose elements are
all strings, with nothing but whitespace around it; anything else fails. -/
def parseJsonStringArray (s : String) : Option (List String) :=
  match skipJsonWs s.data with
  | '[' :: rest =>
    match skipJsonWs rest with
    | ']' :: rest2 => if skipJsonWs rest2 = [] then some [] else none
    | rest1 =>
      match parseElemsGo s.data.length rest1 with
      | none => none
      | some (strs, rest2) => if skipJsonWs rest2 = [] then some strs else none
  | _ => none

/-- `try_completion` lines 334-337 and 342-344 as written: take the second
regex match of `<\|stopSet *(\[.*?\]) *\|>` (`find_iter(..).nth(1)`), and
JSON-parse the text of `Match::as_str` — which is the *entire* match
including the `<|stopSet` and `|>` delimiters, not the bracketed capture
group — defaulting to the empty list when absent or unparsable. -/
def stop_set_of (prompt : String) : List String :=
  (((findMarkers "stopSet" prompt)[1]?).bind
    fun pr => parseJsonStringArray pr.1).getD []

/-- `try_completion` lines 338-341 and 345-347, same shape for
`<|stopRevoke ...|>`. -/
def stop_revoke_of (prompt : String) : List String :=
  (((findMarkers "stopRevoke" prompt)[1]?).bind
    fun pr => parseJsonStringArray pr.1).getD []

/-- The extraction the spec describes (and the unused capture group in the
source regex suggests was intended): JSON-parse the bracketed capture
group of the second `<|stopSet ...|>` occurrence. -/
def specStopSetOf (prompt : String) : List String :=
  (((findMarkers "stopSet" prompt)[1]?).bind
    fun pr => parseJsonStringArray pr.2).getD []

example : parseJsonStringArray "[\"a\",\"b\"]" = some ["a", "b"] := by decide
example : parseJsonStringArray " [ ] " = some [] := by decide
example : parseJsonStringArray "<|stopSet [\"a\"]|>" = none := by decide

/-- Does `needle` occur as a contiguous subsequence of `hay`?
(Rust `str::contains` with a literal pattern.) -/
def containsSubChars (needle : List Char) : List Char → Bool
  | [] => needle.isEmpty
  | c :: rest => needle.isPrefixOf (c :: rest) || containsSubChars needle rest

/-- Rust `str::contains` for string literals. -/
def containsSub (needle hay : String) : Bool :=
  containsSubChars needle.data hay.data

/-- Case-insensitive literal containment, as a `RegexBuilder`
`case_insensitive(true)` literal match. -/
def containsSubCI (needle hay : String) : Bool :=
  containsSubChars (needle.data.map asciiLower) (hay.data.map asciiLower)

/-- Rust `str::starts_with` with a literal pattern. -/
def rustStartsWith (s pre : String) : Bool :=
  pre.data.isPrefixOf s.data

/-- Rust `str::replace` (all non-overlapping occurrences, left to right).
Fuel-driven; every step consumes at least one character of the input, so
fuel equal to the input length never runs out. -/
def replaceCharsGo (pat repl : List Char) : Nat → List Char → List Char
  | _, [] => []
  | 0, cs => cs
  | Nat.succ fuel, c :: cs =>
    if !pat.isEmpty && pat.isPrefixOf (c :: cs) then
      repl ++ replaceCharsGo pat repl fuel ((c :: cs).drop pat.length)
    else
      c :: replaceCharsGo pat repl fuel cs

/-- Rust `str::replace` on strings. -/
def rustReplace (s pat repl : String) : String :=
  String.mk (replaceCharsGo pat.data repl.data s.data.length s.data)

/-- `try_completion` lines 309-315: the model matches the case-insensitive
regex `claude-([12]|instant)` somewhere in its name. -/
def isLegacyModel (model : String) : Bool :=
  containsSubCI "claude-1" model || containsSubCI "claude-2" model
    || containsSubCI "claude-instant" model

/-- `try_completion` lines 316-324. -/
def messagesApiOf (legacy : Bool) (prompt : String) : Bool :=
  !(legacy || containsSubCI "<|completeAPI|>" prompt)
    || containsSub "<|messagesAPI|>" prompt

/-- `try_completion` lines 325-328. -/
def messagesLogOf (prompt : String) : Bool :=
  containsSub "<|messagesLog|>" prompt

/-- `try_completion` lines 329-332. -/
def fusionOf (messages_api : Bool) (prompt : String) : Bool :=
  messages_api && containsSub "<|Fusion Mode|>" prompt

/-- `completion.rs` `ClientRequestInfo` with its `serde(default)` fields;
floating sampling parameters are modelled as rationals. -/
structure ClientRequestInfo where
  temperature : Option ℚ := none
  messages : List Message := []
  model : String := ""
  stream : Bool := false
  max_tokens : Option Int := none
  stop : Option (List String) := none
  top_p : Option ℚ := none
  top_k : Option Int := none
deriving DecidableEq, Repr

/-- `ClientRequestInfo::sanitize_client_request`: clamp `temperature` into
`[0, 1]` when present. -/
def ClientRequestInfo.sanitize_client_request (p : ClientRequestInfo) :
    ClientRequestInfo :=
  { p with
    temperature := p.temperature.map fun t =>
      if t < 0 then 0 else if 1 < t then 1 else t }

/-- The `settings` read by `try_completion`. -/
structure Settings where
  renew_always : Bool
  retry_regenerate : Bool
deriving DecidableEq, Repr

/-- The configuration fields read by `try_completion`. -/
structure CompConfig where
  settings : Settings
  rproxy : String
deriving DecidableEq, Repr

/-- The `InnerState` fields `try_completion` reads and writes (each an
`RwLock` in the source; the spec's concurrency model gives the request
exclusive ownership, so they are modelled as plain fields). -/
structure CompState where
  model : Option String
  cookie_model : Option String
  is_pro : Option Bool
  uuid_org : String
  changing : Bool
  model_list : List String
  conv_uuid : Option String
  conv_char : Option String
  conv_depth : Int
  prev_messages : List Message
  prev_impersonated : Bool
  config : CompConfig
deriving DecidableEq, Repr

/-- Modelled from the spec: `utils::ENDPOINT` (not under `src/`), the
upstream base URL; the claims never depend on its value. -/
def ENDPOINT : String := "https://claude.ai"

/-- Modelled from the spec: `utils::TEST_MESSAGE` (not under `src/`) — per
spec section 6, a single message with content exactly `"Hi"`; role and
flags are the `Message` defaults. -/
def TEST_MESSAGE_INFO : Message := { role := "user", content := "Hi" }

/-- The outfit/emotion-classification prompt prefix of `try_completion`
line 226. -/
def OUTFIT_PREFIX : String :=
  "From the list below, choose a word that best represents a character\x27s outfit description, action, or emotion in their dialogue"

/-- Conversation-lifecycle upstream calls, recorded in issue order. -/
inductive UpstreamCall where
  | deleteChat (uuid : String)
  | createConversation (endpoint org uuid : String)
deriving DecidableEq, Repr

/-- What `try_completion` produces when it does not error: one of the two
canned short-circuit bodies, or the `unimplemented!()` panic point at line
359, modelled as a distinguished result carrying the control values the
function has computed by then. -/
inductive CompReply where
  | cannedTitle
  | cannedNeutral
  | panicUnimplemented (should_renew retry_regen legacy messages_api
      messages_log fusion : Bool) (stop : List String)
deriving DecidableEq, Repr

/-- `AppState::try_completion` (completion.rs lines 189-360).

Oracle parameters stand for effects whose code is outside the shown
sources: `waitChange` for `cookie_changer`/`wait_for_change` (an arbitrary
state transformation; the guarding condition is provably never true, see
`changing_branch_dead`), `newUuid` for `uuid::Uuid::new_v4`, `deleteRes`
and `createRes` for the classified outcomes of the `delete_chat` call and
the conversation-creation POST (`check_res_err`), and `prompt` for the
text assembled by `handle_messages`. The returned trace lists the
conversation-lifecycle calls issued, in order; `delete_chat` is modelled
per spec section 4.4 as deleting the conversation named by `conv_uuid`. -/
def try_completion (s0 : CompState) (payload : ClientRequestInfo)
    (waitChange : CompState → CompState) (newUuid : String)
    (deleteRes createRes : Except ClewdrError Unit) (prompt : String) :
    Except ClewdrError CompReply × List UpstreamCall × CompState :=
  let p := payload.sanitize_client_request
  let s1 := { s0 with
    model := if s0.is_pro.isSome
      then some (rustTrim (rustReplace p.model "--force" ""))
      else s0.cookie_model }
  if s1.uuid_org = "" then (.error .NoValidKey, [], s1)
  else
    let s2 := if !s1.changing && s1.is_pro.isNone
        && decide (s1.model ≠ s1.cookie_model) then waitChange s1 else s1
    if p.messages.isEmpty then (.error .WrongCompletionFormat, [], s2)
    else if !p.stream && p.messages.length = 1
        && p.messages.head? = some TEST_MESSAGE_INFO then
      (.ok .cannedTitle, [], s2)
    else if !p.stream && (p.messages.head?.map
        (fun f => rustStartsWith f.content OUTFIT_PREFIX)).getD false then
      (.ok .cannedNeutral, [], s2)
    else if !decide (p.model ∈ s2.model_list)
        && !containsSub "claude-" p.model then
      (.error (.InvalidModel p.model), [], s2)
    else
      let sp := same_prompts p.messages s2.prev_messages
      let renew := should_renew s2.config.settings.renew_always s2.conv_uuid
        s2.prev_impersonated p.messages s2.prev_messages
      let regen := retry_regen s2.config.settings.retry_regenerate
        s2.conv_char p.messages s2.prev_messages
      let s3 := if !sp then { s2 with prev_messages := p.messages } else s2
      let delTrace := match s3.conv_uuid with
        | some uuid => [UpstreamCall.deleteChat uuid]
        | none => []
      let delOutcome := match s3.conv_uuid with
        | some _ => deleteRes
        | none => .ok ()
      match delOutcome with
      | .error e => (.error e, delTrace, s3)
      | .ok _ =>
        let s4 := { s3 with conv_uuid := some newUuid, conv_depth := 0 }
        let endpointBase := if s4.config.rproxy = "" then ENDPOINT
          else s4.config.rproxy
        let trace := delTrace
          ++ [UpstreamCall.createConversation endpointBase s4.uuid_org newUuid]
        match createRes with
        | .error e => (.error e, trace, s4)
        | .ok _ =>
          let legacy := isLegacyModel p.model
          let messages_api := messagesApiOf legacy prompt
          let messages_log := messagesLogOf prompt
          let fusion := fusionOf messages_api prompt
          let stop_set := stop_set_of prompt
          let stop_revoke := stop_revoke_of prompt
          let stop := assembleStop stop_set (p.stop.getD []) stop_revoke
          (.ok (.panicUnimplemented renew regen legacy messages_api
            messages_log fusion stop), trace, s4)

/-- Modelled from the spec: `types::message::Role` (not under `src/`). -/
inductive Role where
  | User
  | Assistant
  | System
deriving DecidableEq, Repr

/-- Modelled from the spec: the text content block of
`types::message::ContentBlock` (not under `src/`), the only block
constructed by the shown code. -/
inductive ContentBlock where
  | Text (text : String)
deriving DecidableEq, Repr

/-- Modelled from the spec: `types::message::Message` content — either a
plain string (`Message::new_text`) or a list of blocks
(`Message::new_blocks`). -/
inductive ApiContent where
  | text (s : String)
  | blocks (bs : List ContentBlock)
deriving DecidableEq, Repr

/-- Modelled from the spec: `types::message::Message` (not under `src/`)
as used by `messages.rs`: a role and a content payload. -/
structure ApiMessage where
  role : Role
  content : ApiContent
deriving DecidableEq, Repr

/-- `Message::new_blocks`. -/
def ApiMessage.new_blocks (role : Role) (bs : List ContentBlock) : ApiMessage :=
  { role := role, content := .blocks bs }

/-- `Message::new_text`. -/
def ApiMessage.new_text (role : Role) (s : String) : ApiMessage :=
  { role := role, content := .text s }

/-- `messages.rs` `TEST_MESSAGE`: the exact test message sent by
SillyTavern — one user message whose content is the single text block
`"Hi"`. -/
def TEST_MESSAGE : ApiMessage :=
  ApiMessage.new_blocks .User [.Text "Hi"]

/-- `messages.rs` `Thinking`. -/
structure Thinking where
  budget_tokens : Nat
  type : String
deriving DecidableEq, Repr

/-- `messages.rs` `ClientRequestBody` with its `serde(default)` fields;
the `system : serde_json::Value` field is never read by the shown code and
is not modelled. Floating sampling parameters are modelled as rationals. -/
structure ClientRequestBody where
  max_tokens : Nat
  messages : List ApiMessage
  stop_sequences : List String := []
  model : String
  stream : Bool := false
  thinking : Option Thinking := none
  temperature : ℚ := 0
  top_p : ℚ := 0
  top_k : Nat := 0
deriving DecidableEq, Repr

/-- `messages.rs` `Attachment`. -/
structure Attachment where
  extracted_content : String
  file_name : String
  file_type : String
  file_size : Nat
deriving DecidableEq, Repr

/-- `Attachment::new`: pasted text with size, fixed name and type. -/
def Attachment.new (content : String) : Attachment :=
  { file_size := content.utf8ByteSize
    extracted_content := content
    file_name := "paste.txt"
    file_type := "txt" }

/-- Modelled from the spec: `types::message::ImageSource` (not under
`src/`; image upload mechanics are out of the spec's scope). -/
structure ImageSource where
  dummy : Unit := ()
deriving DecidableEq, Repr

/-- `messages.rs` `RequestBody`, the upstream completion request body. -/
structure RequestBody where
  max_tokens_to_sample : Nat
  attachments : List Attachment
  files : List String
  model : String
  rendering_mode : String
  prompt : String
  timezone : String
  images : List ImageSource
deriving DecidableEq, Repr

/-- The successful bodies `try_message` can produce: the serialized
assistant message used by the empty-transform path, the text of a
non-streaming completion, or the pass-through streaming body. -/
inductive MsgReply where
  | assistantText (s : String)
  | textBody (t : String)
  | streamBody
deriving DecidableEq, Repr

/-- Upstream calls issued by `try_message`, in order. -/
inductive MsgCall where
  | createConversation (org uuid : String)
  | uploadImages
  | completionPost (org uuid : String) (body : RequestBody)
deriving DecidableEq, Repr

/-- The `AppState` fields `try_message` reads and writes. -/
structure MsgState where
  cookie : String
  org_uuid : String
  conv_uuid : Option String
deriving DecidableEq, Repr

/-- `AppState::try_message` (messages.rs lines 218-300).

Oracle parameters stand for code outside the shown sources: `newUuid` for
`uuid::Uuid::new_v4`, `createRes` for the classified outcome of the
conversation-creation POST (`check_res_err`), `transformRes` for
`self.transform(p)` (returns `None` when the transformation yields no
request body), `uploadedFiles` for `upload_images`, and `completionRes`
for the classified completion response (its text when non-streaming). -/
def try_message (s : MsgState) (p : ClientRequestBody) (newUuid : String)
    (createRes : Except ClewdrError Unit) (transformRes : Option RequestBody)
    (uploadedFiles : List String)
    (completionRes : Except ClewdrError String) :
    Except ClewdrError MsgReply × List MsgCall × MsgState :=
  let stream := p.stream
  let s := { s with conv_uuid := some newUuid }
  let trace := [MsgCall.createConversation s.org_uuid newUuid]
  match createRes with
  | .error e => (.error e, trace, s)
  | .ok _ =>
    match transformRes with
    | none => (.ok (.assistantText "Empty message?"), trace, s)
    | some body =>
      let body := { body with images := [], files := uploadedFiles }
      let trace := trace ++ [MsgCall.uploadImages,
        MsgCall.completionPost s.org_uuid newUuid body]
      match completionRes with
      | .error e => (.error e, trace, s)
      | .ok text =>
        if !stream then (.ok (.textBody text), trace, s)
        else (.ok .streamBody, trace, s)

/-- The responses `api_messages` can produce. The error renderings carry
the error value itself; their formatting (`format!("Error: {}", e)` /
`error_stream(e)`) lives outside the shown sources. -/
inductive ApiResponse where
  | unauthorized
  | assistantText (s : String)
  | success (b : MsgReply)
  | errorStream (e : ClewdrError)
  | errorMessage (e : ClewdrError)
deriving DecidableEq, Repr

/-- Observable outcome of one `api_messages` request: the HTTP response,
whether execution reached the bootstrap/upstream stage (everything after
the auth and test-message early returns), and the `(cookie, reason)`
tuples sent on the pool return channel, in order. -/
structure ApiOutcome where
  response : ApiResponse
  reachedBootstrap : Bool
  sends : List (String × Option Reason)
deriving DecidableEq, Repr

/-- messages.rs lines 165-199: the error-path classification deciding the
`Reason` attached to the cookie-return tuple. -/
def reasonOfError : ClewdrError → Option Reason
  | .TooManyRequest i => some (.Exhausted i)
  | .ExhaustedCookie i => some (.Exhausted i)
  | .InvalidCookie r => some r
  | _ => none

/-- `api_messages` (messages.rs lines 101-214).

`authOk` is the value of `state.config.auth(key)` (config code not under
`src/`); `result` is the outcome of
`state.bootstrap().await.and(state.try_message(p).await)`. The `Ok` path
sends its tuple from the deferred cleanup task; the `Err` path sends
inline after classifying the error — in both cases the send is recorded in
`sends`. -/
def api_messages (authOk : Bool) (cookie : String) (p : ClientRequestBody)
    (result : Except ClewdrError MsgReply) : ApiOutcome :=
  if !authOk then
    { response := .unauthorized, reachedBootstrap := false, sends := [] }
  else if !p.stream && decide (p.messages = [TEST_MESSAGE]) then
    { response := .assistantText "Test message"
      reachedBootstrap := false, sends := [] }
  else
    match result with
    | .ok b =>
      { response := .success b
        reachedBootstrap := true
        sends := [(cookie, none)] }
    | .error e =>
      { response := if p.stream then .errorStream e else .errorMessage e
        reachedBootstrap := true
        sends := [(cookie, reasonOfError e)] }

/-- The spec's wording: "the first system message content (excluding the
sentinel `[Start a new chat]`)". -/
def specFirstSystemContent (ms : List Message) : Option String :=
  (ms.find? (fun m => m.role == "system"
    && m.content != "[Start a new chat]")).map Message.content

/-- The spec's wording: "the first user message content". -/
def specFirstUserContent (ms : List Message) : Option String :=
  (ms.find? (fun m => m.role == "user")).map Message.content

/-- The spec's wording of `same_char_diff_chat`: not `same_prompts`, but
the first system message content (excluding the sentinel) and the first
user message content are unchanged from the previous request. -/
def spec_same_char_diff_chat (cur prev : List Message) : Prop :=
  same_prompts cur prev = false
    ∧ specFirstSystemContent cur = specFirstSystemContent prev
    ∧ specFirstUserContent cur = specFirstUserContent prev

/-- The spec's wording of `should_renew`: `renew_always`, OR no existing
conversation, OR `prev_impersonated`, OR (`renew_always` false and
`same_prompts`), OR `same_char_diff_chat`. -/
def spec_should_renew (renew_always : Bool) (conv_uuid : Option String)
    (prev_impersonated : Bool) (cur prev : List Message) : Prop :=
  renew_always = true ∨ conv_uuid = none ∨ prev_impersonated = true
    ∨ (renew_always = false ∧ same_prompts cur prev = true)
    ∨ same_char_diff_chat cur prev = true

/-- C2: for every request processed by `try_completion`, `should_renew`
holds exactly when `renew_always` is set, or no conversation exists, or
`prev_impersonated` is set, or (`renew_always` is false and `same_prompts`
holds), or `same_char_diff_chat` holds; and `same_char_diff_chat` holds
exactly when `same_prompts` fails but the first sentinel-excluding system
content and first user content are unchanged from the previous request. -/
theorem c2_should_renew_formula (renew_always : Bool)
    (conv_uuid : Option String) (prev_impersonated : Bool)
    (cur prev : List Message) :
    (should_renew renew_always conv_uuid prev_impersonated cur prev = true
      ↔ spec_should_renew renew_always conv_uuid prev_impersonated cur prev)
    ∧ (same_char_diff_chat cur prev = true
      ↔ spec_same_char_diff_chat cur prev) := by
  have hc : same_char_diff_chat cur prev = true
      ↔ spec_same_char_diff_chat cur prev := by
    simp only [same_char_diff_chat, spec_same_char_diff_chat,
      specFirstSystemContent, specFirstUserContent, PromptsGroup.find,
      Bool.and_eq_true, Bool.not_eq_true', decide_eq_true_eq]
    tauto
  refine ⟨?_, hc⟩
  simp only [should_renew, spec_should_renew, Bool.or_eq_true,
    Bool.and_eq_true, Bool.not_eq_true', Option.isNone_iff_eq_none, hc]
  tauto

/-- C5: `same_prompts` is symmetric; replacing the request list by one
whose non-system part is any permutation of the original non-system part
leaves `same_prompts` unchanged; and `same_prompts` holds exactly when the
two system-filtered lists are permutations of each other (sorting under the
total order and comparing). -/
theorem c5_same_prompts_algebra :
    (∀ A B, same_prompts A B = same_prompts B A)
    ∧ (∀ A A' B, List.Perm (nonSystem A) (nonSystem A')
        → same_prompts A' B = same_prompts A B)
    ∧ (∀ A B, same_prompts A B = true
        ↔ List.Perm (nonSystem A) (nonSystem B)) := by
  refine ⟨?_, ?_, ?_⟩
  · intro A B
    exact decide_eq_decide.mpr eq_comm
  · intro A A' B h
    unfold same_prompts
    rw [sortMessages_eq_of_perm h.symm]
  · intro A B
    unfold same_prompts
    rw [decide_eq_true_eq]
    exact sortMessages_eq_iff_perm

/-- Witness for C5 at concrete inputs: permuting two user messages leaves
`same_prompts` unchanged. -/
theorem c5_witness :
    same_prompts
      [{ role := "user", content := "b" }, { role := "user", content := "a" }]
      []
    = same_prompts
      [{ role := "user", content := "a" }, { role := "user", content := "b" }]
      [] :=
  c5_same_prompts_algebra.2.1
    [{ role := "user", content := "a" }, { role := "user", content := "b" }]
    [{ role := "user", content := "b" }, { role := "user", content := "a" }]
    [] (by decide)

/-- C1: whenever an `api_messages` request reaches the cookie-acquisition
stage, exactly one `(cookie, Option Reason)` tuple is sent on the return
channel, on every exit path: `some (Exhausted i)` for `TooManyRequest i`
and `ExhaustedCookie i`, `some r` for `InvalidCookie r`, and `none` on
success and on every other error. -/
theorem c1_exactly_one_cookie_return (authOk : Bool) (cookie : String)
    (p : ClientRequestBody) (result : Except ClewdrError MsgReply)
    (h : (api_messages authOk cookie p result).reachedBootstrap = true) :
    (api_messages authOk cookie p result).sends.length = 1
    ∧ (∀ b, result = .ok b
        → (api_messages authOk cookie p result).sends = [(cookie, none)])
    ∧ (∀ i, result = .error (.TooManyRequest i)
        → (api_messages authOk cookie p result).sends
          = [(cookie, some (.Exhausted i))])
    ∧ (∀ i, result = .error (.ExhaustedCookie i)
        → (api_messages authOk cookie p result).sends
          = [(cookie, some (.Exhausted i))])
    ∧ (∀ r, result = .error (.InvalidCookie r)
        → (api_messages authOk cookie p result).sends = [(cookie, some r)])
    ∧ (∀ e, result = .error e → reasonOfError e = none
        → (api_messages authOk cookie p result).sends = [(cookie, none)]) := by
  cases authOk with
  | false => simp [api_messages] at h
  | true =>
    by_cases ht : (!p.stream && decide (p.messages = [TEST_MESSAGE])) = true
    · simp [api_messages, ht] at h
    · refine ⟨?_, ?_, ?_, ?_, ?_, ?_⟩
      · cases result <;> simp [api_messages, ht]
      · rintro b rfl
        simp [api_messages, ht]
      · rintro i rfl
        simp [api_messages, ht, reasonOfError]
      · rintro i rfl
        simp [api_messages, ht, reasonOfError]
      · rintro r rfl
        simp [api_messages, ht, reasonOfError]
      · rintro e rfl he
        simp [api_messages, ht, he]

/-- Witness for C1: a rate-limited request sends exactly the
`Exhausted`-classified tuple. -/
theorem c1_witness :
    (api_messages true "cookie"
      { max_tokens := 1, messages := [], model := "m" }
      (.error (.TooManyRequest 5))).sends
    = [("cookie", some (.Exhausted 5))] :=
  (c1_exactly_one_cookie_return true "cookie"
    { max_tokens := 1, messages := [], model := "m" }
    (.error (.TooManyRequest 5)) (by decide)).2.2.1 5 rfl

/-- C9: a request failing the auth check is answered 401 without reaching
bootstrap (no cookie acquired, no upstream call) and with nothing sent on
the cookie-return channel. -/
theorem c9_unauthorized_short_circuit (cookie : String)
    (p : ClientRequestBody) (result : Except ClewdrError MsgReply) :
    api_messages false cookie p result
      = { response := .unauthorized, reachedBootstrap := false
          sends := [] } :=
  rfl

/-- C8: a non-streaming request whose message list is exactly the test
message (one user message with content `"Hi"`) is answered with the canned
identification content without reaching bootstrap (hence without any
upstream HTTP call), in both handlers: `api_messages` returns its canned
body before acquiring a cookie, and `try_completion` returns the canned
`TITLE` body with an empty upstream-call trace. -/
theorem c8_test_message_short_circuit :
    (∀ (cookie : String) (p : ClientRequestBody)
        (result : Except ClewdrError MsgReply),
      p.stream = false → p.messages = [TEST_MESSAGE] →
      api_messages true cookie p result
        = { response := .assistantText "Test message"
            reachedBootstrap := false, sends := [] })
    ∧ (∀ (s0 : CompState) (pl : ClientRequestInfo)
        (wc : CompState → CompState) (nu : String)
        (dr cr : Except ClewdrError Unit) (pr : String),
      s0.uuid_org ≠ "" → pl.stream = false
      → pl.messages = [TEST_MESSAGE_INFO] →
      (try_completion s0 pl wc nu dr cr pr).1 = .ok .cannedTitle
      ∧ (try_completion s0 pl wc nu dr cr pr).2.1 = []) := by
  constructor
  · intro cookie p result hs hm
    unfold api_messages
    simp [hs, hm]
  · intro s0 pl wc nu dr cr pr ho hs hm
    unfold try_completion
    simp [ClientRequestInfo.sanitize_client_request, hs, hm, ho,
      TEST_MESSAGE_INFO]

/-- A concrete session state used by the witnesses below. -/
def sampleState : CompState :=
  { model := none, cookie_model := none, is_pro := some true,
    uuid_org := "org", changing := false, model_list := ["m"],
    conv_uuid := some "old-conv", conv_char := none, conv_depth := 3,
    prev_messages := [], prev_impersonated := false,
    config := { settings := { renew_always := false, retry_regenerate := false }, rproxy := "" } }

/-- Witness for C8 at concrete inputs. -/
theorem c8_witness :
    (api_messages true "c"
        { max_tokens := 1, messages := [TEST_MESSAGE], model := "m" }
        (.ok .streamBody)
      = { response := .assistantText "Test message"
          reachedBootstrap := false, sends := [] })
    ∧ ((try_completion sampleState
        { messages := [TEST_MESSAGE_INFO], model := "m" }
        id "u" (.ok ()) (.ok ()) "").1 = .ok .cannedTitle) :=
  ⟨c8_test_message_short_circuit.1 "c"
      { max_tokens := 1, messages := [TEST_MESSAGE], model := "m" }
      (.ok .streamBody) rfl rfl,
    (c8_test_message_short_circuit.2 sampleState
      { messages := [TEST_MESSAGE_INFO], model := "m" }
      id "u" (.ok ()) (.ok ()) "" (by decide) rfl rfl).1⟩

/-- The cookie-change branch of `try_completion` (lines 202-208) can never
fire: the `model` field has just been written to `cookie_model` whenever
`is_pro` is `None`, so the guarding condition is always false and the
`waitChange` oracle is irrelevant. -/
theorem try_completion_wc_eq (s0 : CompState) (pl : ClientRequestInfo)
    (wc : CompState → CompState) (nu : String)
    (dr cr : Except ClewdrError Unit) (pr : String) :
    try_completion s0 pl wc nu dr cr pr = try_completion s0 pl id nu dr cr pr := by
  unfold try_completion
  cases hip : s0.is_pro <;> simp [hip]

/-- C6: a request with an empty message list is answered with
`WrongCompletionFormat` immediately: no upstream call is issued (no
conversation created, empty trace), and the error classifies as a healthy
cookie return (reason `none`). -/
theorem c6_empty_messages_wrong_format (s0 : CompState)
    (pl : ClientRequestInfo) (wc : CompState → CompState) (nu : String)
    (dr cr : Except ClewdrError Unit) (pr : String)
    (ho : s0.uuid_org ≠ "") (hm : pl.messages = []) :
    (try_completion s0 pl wc nu dr cr pr).1 = .error .WrongCompletionFormat
    ∧ (try_completion s0 pl wc nu dr cr pr).2.1 = []
    ∧ reasonOfError .WrongCompletionFormat = none := by
  refine ⟨?_, ?_, rfl⟩ <;>
    · unfold try_completion
      simp [ClientRequestInfo.sanitize_client_request, hm, ho]

/-- Witness for C6 at concrete inputs. -/
theorem c6_witness :
    (try_completion sampleState { model := "m" } id "u" (.ok ()) (.ok ())
      "").1 = .error .WrongCompletionFormat :=
  (c6_empty_messages_wrong_format sampleState { model := "m" } id "u"
    (.ok ()) (.ok ()) "" (by decide) rfl).1

/-- C7: when a conversation exists for the session as the request reaches
the renewal section, the `delete_chat` call is issued first — before the
conversation-creation call — and once the deletion has succeeded the trace
is exactly delete-then-create and the resulting session state carries the
fresh conversation id with `conv_depth` reset to `0`. -/
theorem c7_delete_before_create (s0 : CompState) (pl : ClientRequestInfo)
    (wc : CompState → CompState) (nu : String)
    (dr cr : Except ClewdrError Unit) (pr : String) (u : String)
    (ho : s0.uuid_org ≠ "")
    (hm : pl.messages ≠ [])
    (ht : (!pl.stream && decide (pl.messages.length = 1)
      && decide (pl.messages.head? = some TEST_MESSAGE_INFO)) = false)
    (hout : (!pl.stream && ((pl.messages.head?.map
      (fun f => rustStartsWith f.content OUTFIT_PREFIX)).getD false)) = false)
    (hmodel : (!decide (pl.model ∈ s0.model_list)
      && !containsSub "claude-" pl.model) = false)
    (hc : s0.conv_uuid = some u) :
    ((try_completion s0 pl wc nu dr cr pr).2.1).head?
      = some (.deleteChat u)
    ∧ (dr = .ok () →
      (try_completion s0 pl wc nu dr cr pr).2.1
        = [.deleteChat u, .createConversation
            (if s0.config.rproxy = "" then ENDPOINT else s0.config.rproxy)
            s0.uuid_org nu]
      ∧ (try_completion s0 pl wc nu dr cr pr).2.2.conv_depth = 0
      ∧ (try_completion s0 pl wc nu dr cr pr).2.2.conv_uuid = some nu) := by
  have hm2 : pl.messages.isEmpty = false := by
    cases hml : pl.messages with
    | nil => exact absurd hml hm
    | cons a l => rfl
  rw [try_completion_wc_eq]
  unfold try_completion
  dsimp only [ClientRequestInfo.sanitize_client_request]
  rw [if_neg ho]
  simp only [id_eq, ite_self]
  rw [hm2, ht, hout]
  simp only [Bool.false_eq_true, if_false]
  rw [hmodel]
  simp only [Bool.false_eq_true, if_false]
  rw [hc]
  simp only [apply_ite CompState.conv_uuid, apply_ite CompState.config,
    apply_ite CompState.uuid_org, ite_self]
  constructor
  · cases dr with
    | error e => rfl
    | ok a => cases cr <;> rfl
  · rintro rfl
    cases cr <;> exact ⟨rfl, rfl, rfl⟩

/-- Witness for C7 at concrete inputs: the old conversation is deleted
before the new one is created and the depth resets. -/
theorem c7_witness :
    (try_completion sampleState
      { messages := [{ role := "user", content := "x" },
        { role := "user", content := "y" }], model := "m" }
      id "new-conv" (.ok ()) (.ok ()) "").2.1
    = [.deleteChat "old-conv",
       .createConversation ENDPOINT "org" "new-conv"] :=
  ((c7_delete_before_create sampleState
    { messages := [{ role := "user", content := "x" },
      { role := "user", content := "y" }], model := "m" }
    id "new-conv" (.ok ()) (.ok ()) "" "old-conv"
    (by decide) (by decide) (by decide) (by decide) (by decide) rfl).2
    rfl).1

/-- C10: in `try_message` the empty-transform check sits after the
conversation has been created: a failed creation returns its error with
the conversation-create call already traced (the check is never reached),
and a successful creation followed by a transform yielding no request body
returns a success response carrying the assistant text "Empty message?",
not an error. -/
theorem c10_empty_transform_after_create :
    (∀ (s : MsgState) (p : ClientRequestBody) (nu : String)
        (tr : Option RequestBody) (uf : List String)
        (cres : Except ClewdrError String) (e : ClewdrError),
      try_message s p nu (.error e) tr uf cres
        = (.error e, [.createConversation s.org_uuid nu],
            { s with conv_uuid := some nu }))
    ∧ (∀ (s : MsgState) (p : ClientRequestBody) (nu : String)
        (uf : List String) (cres : Except ClewdrError String),
      try_message s p nu (.ok ()) none uf cres
        = (.ok (.assistantText "Empty message?"),
            [.createConversation s.org_uuid nu],
            { s with conv_uuid := some nu })) :=
  ⟨fun _ _ _ _ _ _ _ => rfl, fun _ _ _ _ _ => rfl⟩

/-- C3 counterexample: at `stop_set=["Human:"]`, client
`stop=["END","human:"]`, `stop_revoke=["END"]`, the assembled list is not
the three-element list the claim states: the client entry `"human:"` is
not case-insensitively equal to the revoke entry `"END"`, so it is kept. -/
theorem c3_counterexample :
    assembleStop ["Human:"] ["END", "human:"] ["END"]
      ≠ ["Human:", "\n\nHuman:", "\n\nAssistant:"] := by
  decide

/-- C3 amended: the final stop list is `stop_set`, then the client stop
list, then the defaults, dropping entries whose trimmed form is empty or
case-insensitively equal to a `stop_revoke` entry, with no further
deduplication; at the claim inputs the result is
`["Human:", "human:", "\n\nHuman:", "\n\nAssistant:"]` — the `"human:"`
entry survives because only `"END"` is revoked. -/
theorem c3_stop_list_amended :
    (∀ ss cs sr, assembleStop ss cs sr = specStopList ss cs sr)
    ∧ assembleStop ["Human:"] ["END", "human:"] ["END"]
      = ["Human:", "human:", "\n\nHuman:", "\n\nAssistant:"] := by
  constructor
  · intro ss cs sr
    unfold assembleStop specStopList
    congr 1
    funext s
    rw [Bool.eq_iff_iff]
    simp only [Bool.and_eq_true, Bool.not_eq_true', decide_eq_true_eq,
      List.any_eq_false]
    constructor
    · rintro ⟨h1, h2⟩
      exact ⟨fun he => absurd
        (h1 ▸ (String.isEmpty_iff _).mpr he) Bool.false_ne_true, h2⟩
    · rintro ⟨h1, h2⟩
      exact ⟨Bool.eq_false_iff.mpr
        (fun hh => h1 ((String.isEmpty_iff _).mp hh)), h2⟩
  · decide

/-- The failing input for C4: a prompt embedding `<|stopSet ["a","b"]|>`
twice. -/
def dblStopSetPrompt : String :=
  "x<|stopSet [\"a\",\"b\"]|>y<|stopSet [\"a\",\"b\"]|>z"

/-- C4 (code bug): the scan does select the second `<|stopSet ...|>`
occurrence, whose capture group is `["a","b"]` — but the code JSON-parses
the full match text (`Match::as_str`) instead of the capture group, so the
parse always fails and `stop_set` collapses to `[]` instead of the claimed
`["a","b"]`. The extraction the spec describes (`specStopSetOf`, parsing
the capture group that the source regex defines but never uses) yields
`["a","b"]` from the second occurrence. -/
theorem c4_stop_set_full_match_bug :
    stop_set_of dblStopSetPrompt = []
    ∧ (findMarkers "stopSet" dblStopSetPrompt).length = 2
    ∧ ((findMarkers "stopSet" dblStopSetPrompt)[1]?).map Prod.snd
        = some "[\"a\",\"b\"]"
    ∧ specStopSetOf dblStopSetPrompt = ["a", "b"] :=
  ⟨by decide, by decide, by decide, by decide⟩
